import Mathlib

/-!
Shallow embedding of `von_agent/wallet.py` (class `Wallet`), the wallet
lifecycle shim over the indy-sdk backend, together with a model of the
opaque backend capability it consumes.

Conventions of the embedding:
* Python `dict` configuration values become association lists
  `Cfg = List (String × JVal)` over a JSON-value type; Python dicts have
  unique keys and preserve insertion order, and the `json` round-trip
  the source uses for deep copying is the identity on such values.
* Each backend call that can fail takes its outcome as an explicit
  argument (`Except IndyErrorCode _`), since the backend is an external
  collaborator; the sequencing, error translation and state updates are
  translated from the source.
* Raised Python exceptions become `Except.error` with a `PyErr` describing
  the exception that actually escapes the method, including exceptions
  raised by the method body itself (attribute and name errors).
* Methods additionally return the list of backend calls they issued, so
  that claims about which arguments reach the backend are statable.
-/

/-- A JSON-representable configuration value (the source only ever reads
booleans from the configuration; other entries are passed through). -/
inductive JVal where
  | jbool : Bool → JVal
  | jnum : Int → JVal
  | jstr : String → JVal
  deriving DecidableEq, Repr

/-- A wallet configuration: a Python dict of string keys to JSON values,
as an insertion-ordered association list. -/
abbrev Cfg := List (String × JVal)

/-- Python truthiness of a JSON value, as used by `if auto_remove:`. -/
def JVal.truthy : JVal → Bool
  | .jbool b => b
  | .jnum n => n != 0
  | .jstr s => s != ""

/-- `d.get(k)` on a Python dict: the value at the first (only) binding of
`k`, if any. -/
def cfgLookup (c : Cfg) (k : String) : Option JVal :=
  (c.find? (fun p => p.1 == k)).map Prod.snd

/-- `d.pop(k)` / key removal on a Python dict: drop the binding of `k`,
keeping every other entry in order. -/
def cfgErase (c : Cfg) (k : String) : Cfg :=
  c.filter (fun p => p.1 != k)

/-- `self.cfg.get` of `auto_remove` with default `False` followed by Python truthiness,
as in `Wallet.close`. -/
def autoRm (c : Cfg) : Bool :=
  ((cfgLookup c "auto_remove").getD (JVal.jbool false)).truthy

/-- indy-sdk error codes as far as the source distinguishes them. -/
inductive IndyErrorCode where
  | WalletAlreadyExistsError
  | WalletItemNotFound
  | other : Nat → IndyErrorCode
  deriving DecidableEq, Repr

/-- The Python exception that escapes a `Wallet` method: a re-raised indy
error, or an exception raised by the method body itself. -/
inductive PyErr where
  | indyError : IndyErrorCode → PyErr
  | attributeError : String → String → PyErr
  | nameError : String → PyErr
  deriving DecidableEq, Repr

/-- A call issued to the indy-sdk backend, with the arguments the source
passes it. `createWallet`/`openWallet` carry the serialized configuration
(`none` embeds Python `None`, i.e. no configuration sent). -/
inductive BackendCall where
  | createWallet : String → String → Option Cfg → BackendCall
  | openWallet : String → Option Cfg → BackendCall
  | closeWallet : Option Nat → BackendCall
  | deleteWallet : String → BackendCall
  deriving DecidableEq, Repr

/-- The configuration argument of a backend call, when it has one. -/
def BackendCall.cfgArg : BackendCall → Option (Option Cfg)
  | .createWallet _ _ c => some c
  | .openWallet _ c => some c
  | _ => none

/-- The configuration a backend call receives, reading Python `None` as
the empty configuration. -/
def optCfg : Option Cfg → Cfg
  | none => []
  | some c => c

/-- The fields of the `Wallet` object: `_pool_name`, `_name`, `_handle`,
`_cfg`, `_did`, `_verkey`. `none` embeds Python `None`. -/
structure Wallet where
  pool_name : String
  name : String
  handle : Option Nat
  cfg : Cfg
  did : Option String
  verkey : Option String
  deriving DecidableEq, Repr

/-- `Wallet.__init__(pool_name, name, cfg)`: stores the parameters, a
`None` handle and no current identity; `self._cfg = cfg or {}`. -/
def Wallet.init (pool_name name : String) (cfg : Option Cfg) : Wallet :=
  { pool_name := pool_name
    name := name
    handle := none
    cfg := cfg.getD []
    did := none
    verkey := none }

/-- `json.dumps(cfg) if cfg else None` applied to the stripped copy of the
configuration in `Wallet.open`: an empty dict is falsy, so `None` is sent;
otherwise the stripped configuration itself. -/
def sentConfig (c : Cfg) : Option Cfg :=
  if (cfgErase c "auto_remove").isEmpty then none
  else some (cfgErase c "auto_remove")

/-- `Wallet.open`: deep-copies `self._cfg`, pops `auto_remove` from the
copy, tries `wallet.create_wallet` with the stripped configuration.  An
`IndyError` with code `WalletAlreadyExistsError` is logged and ignored;
on any other `IndyError` the log line of the handler evaluates
`self.e.error_code`, and `Wallet` has no attribute `e`, so an
`AttributeError` is raised there (before the `raise` statement is
reached).  Otherwise `wallet.open_wallet` is called with the same
stripped configuration, its handle stored in `self._handle`, and `self`
returned.  `createRes` is the outcome of the create call and `openRes`
that of the open call. -/
def Wallet.openW (w : Wallet) (createRes : Except IndyErrorCode Unit)
    (openRes : Except IndyErrorCode Nat) :
    Except PyErr Wallet × List BackendCall :=
  let sent := sentConfig w.cfg
  let createCall := BackendCall.createWallet w.pool_name w.name sent
  let proceed : Except PyErr Wallet × List BackendCall :=
    match openRes with
    | .error c => (.error (.indyError c), [createCall, .openWallet w.name sent])
    | .ok h => (.ok { w with handle := some h }, [createCall, .openWallet w.name sent])
  match createRes with
  | .ok _ => proceed
  | .error c =>
      if c = IndyErrorCode.WalletAlreadyExistsError then proceed
      else (.error (.attributeError "Wallet" "e"), [createCall])

/-- `Wallet.remove`: calls `wallet.delete_wallet(self.name, None)` inside
`try`/`except Exception`.  The handler logs via `sys.exc_info()`, but the
module never imports `sys`, so when the delete call fails the handler
itself raises a `NameError` (name `sys` is not defined), which escapes.
`deleteRes` is the outcome of the delete call. -/
def Wallet.remove (w : Wallet) (deleteRes : Except IndyErrorCode Unit) :
    Except PyErr Wallet × List BackendCall :=
  (match deleteRes with
    | .ok _ => Except.ok w
    | .error _ => Except.error (PyErr.nameError "sys"),
   [BackendCall.deleteWallet w.name])

/-- `Wallet.close`: calls `wallet.close_wallet(self.handle)` (an error
there propagates), then reads `auto_remove` from the original `self._cfg`
with default `False`, and if truthy invokes `self.remove()`.  The handle
field is not modified.  `closeRes` is the outcome of the backend close
call, `deleteRes` that of the delete call inside `remove` (consulted only
when removal happens). -/
def Wallet.close (w : Wallet) (closeRes : Except IndyErrorCode Unit)
    (deleteRes : Except IndyErrorCode Unit) :
    Except PyErr Wallet × List BackendCall :=
  match closeRes with
  | .error c => (.error (.indyError c), [BackendCall.closeWallet w.handle])
  | .ok _ =>
      if autoRm w.cfg then
        match Wallet.remove w deleteRes with
        | (r, tr) => (r, BackendCall.closeWallet w.handle :: tr)
      else
        (.ok w, [BackendCall.closeWallet w.handle])

/-- An identity record as stored by the backend and returned by
`did.list_my_dids_with_meta` / `did.get_my_did_with_meta`. -/
structure DidInfo where
  did : String
  verkey : String
  metadata : Option String
  deriving DecidableEq, Repr

/-- Model of the per-wallet identity store of the opaque backend: the stored
identity records, oldest first (the backend lists them in creation
order). -/
structure BackendState where
  dids : List DidInfo
  deriving DecidableEq, Repr

/-- Model of the backend call `did.get_my_did_with_meta(handle, d)`:
fetches the stored record whose DID is `d`, failing with an item-not-found
indy error when there is none. -/
def getMyDidWithMeta (bs : BackendState) (d : String) :
    Except IndyErrorCode DidInfo :=
  match bs.dids.find? (fun r => r.did == d) with
  | some r => .ok r
  | none => .error IndyErrorCode.WalletItemNotFound

/-- `Wallet.create_did(did, seed, cid)`: asks the backend to derive and
store an identity (`did.create_and_store_my_did`); on success the backend
appends the new record to the store of the wallet and returns the pair, and
the method assigns it to `self._did`, `self._verkey` and returns the DID.
`res` is the backend outcome: the derived `(did, verkey)` pair, which the
opaque derivation computes from the `{did, seed, cid}` request. -/
def Wallet.create_did (w : Wallet) (bs : BackendState)
    (res : Except IndyErrorCode (String × String)) :
    Except PyErr (Wallet × BackendState × String) :=
  match res with
  | .error c => .error (.indyError c)
  | .ok (d, v) =>
      .ok ({ w with did := some d, verkey := some v },
           { dids := bs.dids ++ [{ did := d, verkey := v, metadata := none }] },
           d)

/-- `Wallet.load_did(did)`: fetches the stored record for `did` via
`did.get_my_did_with_meta`, parses it, assigns its `did`/`verkey` fields
to `self._did`/`self._verkey`, and returns the DID.  The backend store is
not modified. -/
def Wallet.load_did (w : Wallet) (bs : BackendState) (d : String) :
    Except PyErr (Wallet × BackendState × String) :=
  match getMyDidWithMeta bs d with
  | .error c => .error (.indyError c)
  | .ok r => .ok ({ w with did := some r.did, verkey := some r.verkey }, bs, r.did)

/-- `Wallet.stored_dids()`: returns the listing of the backend
(`did.list_my_dids_with_meta`) parsed, which is the stored records oldest
first; neither the wallet object nor the backend store is modified. -/
def Wallet.stored_dids (w : Wallet) (bs : BackendState) :
    Wallet × BackendState × List DidInfo :=
  (w, bs, bs.dids)

/-! ### Helper lemmas about configuration stripping -/

/-- Looking up a key in a filtered association list that dropped that key
yields nothing. -/
theorem cfgLookup_cfgErase_self (c : Cfg) (k : String) :
    cfgLookup (cfgErase c k) k = none := by
  have h : (cfgErase c k).find? (fun p => p.1 == k) = none := by
    rw [List.find?_eq_none]
    intro x hx
    have hmem := List.mem_filter.mp hx
    simpa using hmem.2
  simp [cfgLookup, h]

/-- Dropping one key from an association list does not change the lookup
of any other key. -/
theorem cfgLookup_cfgErase_ne (c : Cfg) (k k' : String) (hne : k' ≠ k) :
    cfgLookup (cfgErase c k) k' = cfgLookup c k' := by
  unfold cfgLookup cfgErase
  induction c with
  | nil => rfl
  | cons p t ih =>
      by_cases h : p.1 = k
      · rw [List.filter_cons_of_neg (by simp [h])]
        rw [List.find?_cons_of_neg _ (by simp only [h, beq_iff_eq]; exact Ne.symm hne)]
        exact ih
      · rw [List.filter_cons_of_pos (by simp [h])]
        by_cases h2 : p.1 = k'
        · rw [List.find?_cons_of_pos _ (by simp [h2]),
            List.find?_cons_of_pos _ (by simp [h2])]
        · rw [List.find?_cons_of_neg _ (by simp [h2]),
            List.find?_cons_of_neg _ (by simp [h2])]
          exact ih

/-- The configuration the backend receives on open is the stripped
configuration (an empty stripped configuration is sent as `None`, which
the backend reads as the empty configuration). -/
theorem optCfg_sentConfig (c : Cfg) :
    optCfg (sentConfig c) = cfgErase c "auto_remove" := by
  by_cases h : (cfgErase c "auto_remove").isEmpty = true
  · simp only [sentConfig, if_pos h, optCfg]
    exact (List.isEmpty_iff.mp h).symm
  · simp only [sentConfig, if_neg h, optCfg]

/-- The trace of backend calls issued by `Wallet.open` is either the
create call alone (fatal create failure) or the create call followed by
the open call; both carry the stripped configuration. -/
theorem openW_trace (w : Wallet) (cr : Except IndyErrorCode Unit)
    (orr : Except IndyErrorCode Nat) :
    (Wallet.openW w cr orr).2 =
      [BackendCall.createWallet w.pool_name w.name (sentConfig w.cfg)] ∨
    (Wallet.openW w cr orr).2 =
      [BackendCall.createWallet w.pool_name w.name (sentConfig w.cfg),
       BackendCall.openWallet w.name (sentConfig w.cfg)] := by
  cases cr with
  | ok u => cases orr <;> exact Or.inr rfl
  | error c =>
      by_cases hc : c = IndyErrorCode.WalletAlreadyExistsError
      · subst hc
        cases orr <;> exact Or.inr rfl
      · left
        simp [Wallet.openW, hc]

/-- Every backend call issued by `Wallet.open` carries the stripped
configuration as its configuration argument. -/
theorem openW_calls_cfgArg (w : Wallet) (cr : Except IndyErrorCode Unit)
    (orr : Except IndyErrorCode Nat) :
    ∀ call ∈ (Wallet.openW w cr orr).2,
      call.cfgArg = some (sentConfig w.cfg) := by
  intro call hmem
  rcases openW_trace w cr orr with h | h
  · rw [h] at hmem
    simp only [List.mem_singleton] at hmem
    simp [hmem, BackendCall.cfgArg]
  · rw [h] at hmem
    simp only [List.mem_cons, List.mem_singleton, List.not_mem_nil,
      or_false] at hmem
    rcases hmem with h2 | h2 <;> simp [h2, BackendCall.cfgArg]

/-! ### Claims -/

/-- C1: on a closed wallet, when the backend create call fails with
`WalletAlreadyExistsError`, `open` treats it as a non-error: it proceeds
to issue the backend open call, stores the resulting session handle in
the wallet, and returns the wallet object itself. -/
theorem c1_already_exists_is_no_error (w : Wallet) (hClosed : w.handle = none)
    (hnd : Nat) :
    Wallet.openW w (Except.error IndyErrorCode.WalletAlreadyExistsError)
        (Except.ok hnd) =
      (Except.ok { w with handle := some hnd },
       [BackendCall.createWallet w.pool_name w.name (sentConfig w.cfg),
        BackendCall.openWallet w.name (sentConfig w.cfg)]) := rfl

/-- Witness for C1 at a concrete closed wallet and session handle 3. -/
theorem c1_already_exists_is_no_error_witness :
    Wallet.openW (Wallet.init "p" "my-wallet" none)
        (Except.error IndyErrorCode.WalletAlreadyExistsError) (Except.ok 3) =
      (Except.ok { Wallet.init "p" "my-wallet" none with handle := some 3 },
       [BackendCall.createWallet "p" "my-wallet" (sentConfig []),
        BackendCall.openWallet "my-wallet" (sentConfig [])]) :=
  c1_already_exists_is_no_error (Wallet.init "p" "my-wallet" none) rfl 3

/-- C2 (code bug): the claim says a failing backend delete call inside
`remove` is caught and logged and `remove` returns normally.  In the
source, the `except` handler calls `sys.exc_info()` but the module never
imports `sys`, so a failing delete makes `remove` raise a `NameError`
instead of returning normally.  Evaluated here at a concrete wallet with
a failing delete call. -/
theorem c2_remove_raises_nameerror :
    Wallet.remove (Wallet.init "p" "my-wallet" none)
        (Except.error (IndyErrorCode.other 204)) =
      (Except.error (PyErr.nameError "sys"),
       [BackendCall.deleteWallet "my-wallet"]) := rfl

/-- C3 (code bug): the claim says a non-`AlreadyExists` backend error on
create is propagated unchanged.  In the source, the error handler logs
`self.e.error_code` and `Wallet` has no attribute `e`, so the method
raises `AttributeError` instead of re-raising the backend error (the
`raise` statement is never reached).  Evaluated here at a concrete closed
wallet whose create call fails with indy error code 113. -/
theorem c3_open_raises_attributeerror :
    Wallet.openW (Wallet.init "p" "my-wallet" none)
        (Except.error (IndyErrorCode.other 113)) (Except.ok 5) =
      (Except.error (PyErr.attributeError "Wallet" "e"),
       [BackendCall.createWallet "p" "my-wallet" none]) := rfl

/-- The handle observed after a successful `open` (session handle 7)
followed by a successful `close` of a freshly constructed wallet;
`none` when either step fails. -/
def c4Run : Option Nat :=
  match (Wallet.openW (Wallet.init "p" "my-wallet" none) (Except.ok ())
      (Except.ok 7)).1 with
  | .error _ => none
  | .ok w1 =>
      match (Wallet.close w1 (Except.ok ()) (Except.ok ())).1 with
      | .error _ => none
      | .ok w2 => w2.handle

/-- C4 (counterexample): after a successful open with session handle 7
and a successful close, the handle field still holds 7 — it is not reset
to null, so the claimed equivalence (handle non-null iff Open) fails in
the Closed state reached by `close`. -/
theorem c4_handle_counterexample : c4Run = some 7 ∧ c4Run ≠ none := by decide

/-- C4 (amended): a freshly constructed wallet has a null handle, and a
successful `open` (fresh creation or already-existing) stores the session
handle; but `close` never modifies the handle field, so after `close`
returns the handle keeps whatever value it had (it is not reset to
null). -/
theorem c4_handle_amended :
    (∀ pn n c, (Wallet.init pn n c).handle = none) ∧
    (∀ w hnd, ((Wallet.openW w (Except.ok ()) (Except.ok hnd)).1).map
        Wallet.handle = Except.ok (some hnd)) ∧
    (∀ w hnd, ((Wallet.openW w
        (Except.error IndyErrorCode.WalletAlreadyExistsError)
        (Except.ok hnd)).1).map Wallet.handle = Except.ok (some hnd)) ∧
    (∀ w cr dr, ((Wallet.close w cr dr).1).map Wallet.handle =
        ((Wallet.close w cr dr).1).map (fun x => w.handle)) := by
  refine ⟨fun pn n c => rfl, fun w hnd => rfl, fun w hnd => rfl,
    fun w cr dr => ?_⟩
  cases cr with
  | error c => rfl
  | ok u =>
      cases dr with
      | error c =>
          by_cases h : autoRm w.cfg = true
          · simp [Wallet.close, Wallet.remove, h, Except.map]
          · simp [Wallet.close, Wallet.remove, h, Except.map]
      | ok u2 =>
          by_cases h : autoRm w.cfg = true
          · simp [Wallet.close, Wallet.remove, h, Except.map]
          · simp [Wallet.close, Wallet.remove, h, Except.map]

/-- C5: every configuration the backend receives from `open` (on both the
create and the open call) is exactly the original configuration with the
`auto_remove` entry removed: looking up `auto_remove` in it yields
nothing, and looking up any other key yields what the original
configuration held. -/
theorem c5_strips_auto_remove (w : Wallet) (cr : Except IndyErrorCode Unit)
    (orr : Except IndyErrorCode Nat) (call : BackendCall)
    (hmem : call ∈ (Wallet.openW w cr orr).2) (oc : Option Cfg)
    (harg : call.cfgArg = some oc) :
    cfgLookup (optCfg oc) "auto_remove" = none ∧
    ∀ k, k ≠ "auto_remove" → cfgLookup (optCfg oc) k = cfgLookup w.cfg k := by
  have hoc : oc = sentConfig w.cfg := by
    have h := openW_calls_cfgArg w cr orr call hmem
    rw [harg] at h
    exact Option.some.inj h
  subst hoc
  rw [optCfg_sentConfig]
  exact ⟨cfgLookup_cfgErase_self w.cfg "auto_remove",
    fun k hk => cfgLookup_cfgErase_ne w.cfg "auto_remove" k hk⟩

/-- Witness for C5 at a concrete configuration holding `auto_remove` and
one other entry, on the create call of a successful open. -/
theorem c5_strips_auto_remove_witness :
    cfgLookup (optCfg (some [("freshness_time", JVal.jnum 0)]))
        "auto_remove" = none ∧
    cfgLookup (optCfg (some [("freshness_time", JVal.jnum 0)]))
        "freshness_time" =
      cfgLookup (Wallet.init "p" "my-wallet"
        (some [("auto_remove", JVal.jbool true),
               ("freshness_time", JVal.jnum 0)])).cfg "freshness_time" := by
  have h := c5_strips_auto_remove
    (Wallet.init "p" "my-wallet"
      (some [("auto_remove", JVal.jbool true),
             ("freshness_time", JVal.jnum 0)]))
    (Except.ok ()) (Except.ok 3)
    (BackendCall.createWallet "p" "my-wallet"
      (some [("freshness_time", JVal.jnum 0)]))
    (by decide) (some [("freshness_time", JVal.jnum 0)]) (by decide)
  exact ⟨h.1, h.2 "freshness_time" (by decide)⟩

/-- C6 (code bug): the claim says a removal failure during `close` must
never cause `close` itself to fail.  `close` does close the backend
session and does invoke removal exactly when `auto_remove` is truthy, but
when the delete call fails the `remove` handler raises a `NameError`
(`sys` is unimported), which propagates out of `close`.  Evaluated here
at an open wallet configured with `auto_remove: true` whose delete call
fails: `close` returns the `NameError` after issuing the session close
and the delete call. -/
theorem c6_close_fails_on_removal_failure :
    Wallet.close
        { pool_name := "p", name := "my-wallet", handle := some 3,
          cfg := [("auto_remove", JVal.jbool true)], did := none,
          verkey := none }
        (Except.ok ()) (Except.error (IndyErrorCode.other 9)) =
      (Except.error (PyErr.nameError "sys"),
       [BackendCall.closeWallet (some 3),
        BackendCall.deleteWallet "my-wallet"]) := rfl

/-- C7: a successful backend identity creation on an open wallet sets the
current DID and verkey of the wallet to exactly the pair the backend
returned, appends the stored record, and returns that DID. -/
theorem c7_create_did_updates_current (w : Wallet) (bs : BackendState)
    (hOpen : w.handle.isSome = true) (d v : String) :
    Wallet.create_did w bs (Except.ok (d, v)) =
      Except.ok ({ w with did := some d, verkey := some v },
        { dids := bs.dids ++ [{ did := d, verkey := v, metadata := none }] },
        d) := rfl

/-- Witness for C7 at a concrete open wallet and the pair
`(did7, vk7)`. -/
theorem c7_create_did_updates_current_witness :
    Wallet.create_did
        { pool_name := "p", name := "w7", handle := some 1, cfg := [],
          did := none, verkey := none }
        { dids := [] } (Except.ok ("did7", "vk7")) =
      Except.ok ({ pool_name := "p", name := "w7", handle := some 1,
                   cfg := [], did := some "did7", verkey := some "vk7" },
        { dids := [{ did := "did7", verkey := "vk7", metadata := none }] },
        "did7") :=
  c7_create_did_updates_current
    { pool_name := "p", name := "w7", handle := some 1, cfg := [],
      did := none, verkey := none }
    { dids := [] } rfl "did7" "vk7"

/-- C8: creating identity A and then identity B leaves the current
DID/verkey equal to the pair of B; a subsequent `load_did` on the DID of
A (assumed not already present in the backend store beforehand) sets the
current DID/verkey back to the pair of A, returns the DID of A, and
leaves the backend store unchanged (no new identity is created). -/
theorem c8_current_identity_switching (w w1 w2 : Wallet)
    (bs bs1 bs2 : BackendState) (dA vA dB vB d1 d2 : String)
    (hFresh : bs.dids.find? (fun r => r.did == dA) = none)
    (hA : Wallet.create_did w bs (Except.ok (dA, vA)) =
      Except.ok (w1, bs1, d1))
    (hB : Wallet.create_did w1 bs1 (Except.ok (dB, vB)) =
      Except.ok (w2, bs2, d2)) :
    w2.did = some dB ∧ w2.verkey = some vB ∧ d2 = dB ∧
    Wallet.load_did w2 bs2 dA =
      Except.ok ({ w2 with did := some dA, verkey := some vA }, bs2, dA) := by
  simp only [Wallet.create_did] at hA hB
  injection hA with hA0
  injection hA0 with hw1 hA1
  injection hA1 with hbs1 hd1
  subst hw1; subst hbs1; subst hd1
  injection hB with hB0
  injection hB0 with hw2 hB1
  injection hB1 with hbs2 hd2
  subst hw2; subst hbs2; subst hd2
  refine ⟨rfl, rfl, rfl, ?_⟩
  simp [Wallet.load_did, getMyDidWithMeta, hFresh]

/-- Witness for C8: concrete run from an empty backend store, creating
`(didA, vkA)` then `(didB, vkB)` and loading back `didA`. -/
theorem c8_current_identity_switching_witness :
    ({ pool_name := "p", name := "w8", handle := some 1, cfg := [],
        did := some "didB", verkey := some "vkB" } : Wallet).did =
      some "didB" ∧
    ({ pool_name := "p", name := "w8", handle := some 1, cfg := [],
        did := some "didB", verkey := some "vkB" } : Wallet).verkey =
      some "vkB" ∧
    "didB" = "didB" ∧
    Wallet.load_did
        { pool_name := "p", name := "w8", handle := some 1, cfg := [],
          did := some "didB", verkey := some "vkB" }
        { dids := [{ did := "didA", verkey := "vkA", metadata := none },
                   { did := "didB", verkey := "vkB", metadata := none }] }
        "didA" =
      Except.ok ({ pool_name := "p", name := "w8", handle := some 1,
                   cfg := [], did := some "didA", verkey := some "vkA" },
        { dids := [{ did := "didA", verkey := "vkA", metadata := none },
                   { did := "didB", verkey := "vkB", metadata := none }] },
        "didA") :=
  c8_current_identity_switching
    { pool_name := "p", name := "w8", handle := some 1, cfg := [],
      did := none, verkey := none }
    { pool_name := "p", name := "w8", handle := some 1, cfg := [],
      did := some "didA", verkey := some "vkA" }
    { pool_name := "p", name := "w8", handle := some 1, cfg := [],
      did := some "didB", verkey := some "vkB" }
    { dids := [] }
    { dids := [{ did := "didA", verkey := "vkA", metadata := none }] }
    { dids := [{ did := "didA", verkey := "vkA", metadata := none },
               { did := "didB", verkey := "vkB", metadata := none }] }
    "didA" "vkA" "didB" "vkB" "didA" "didB"
    rfl rfl rfl

/-- C9: `stored_dids` returns exactly the records the backend lists,
changing neither the wallet object (current DID, verkey, handle, config,
name, pool name) nor the backend store; and after creating two
identities in sequence the listing is the previous store followed by the
two new records in creation order (oldest first). -/
theorem c9_stored_dids_frame (w : Wallet) (bs : BackendState) :
    Wallet.stored_dids w bs = (w, bs, bs.dids) ∧
    (∀ pA pB : String × String, ∀ w1 w2 : Wallet, ∀ bs1 bs2 : BackendState,
      ∀ d1 d2 : String,
      Wallet.create_did w bs (Except.ok pA) = Except.ok (w1, bs1, d1) →
      Wallet.create_did w1 bs1 (Except.ok pB) = Except.ok (w2, bs2, d2) →
      (Wallet.stored_dids w2 bs2).2.2 =
        bs.dids ++ [{ did := pA.1, verkey := pA.2, metadata := none },
                    { did := pB.1, verkey := pB.2, metadata := none }]) := by
  refine ⟨rfl, ?_⟩
  rintro ⟨dA, vA⟩ ⟨dB, vB⟩ w1 w2 bs1 bs2 d1 d2 hA hB
  simp only [Wallet.create_did] at hA hB
  injection hA with hA0
  injection hA0 with hw1 hA1
  injection hA1 with hbs1 hd1
  subst hw1; subst hbs1; subst hd1
  injection hB with hB0
  injection hB0 with hw2 hB1
  injection hB1 with hbs2 hd2
  subst hw2; subst hbs2; subst hd2
  simp [Wallet.stored_dids]

/-- Witness for C9: concrete run from an empty backend store, creating
`(didA, vkA)` then `(didB, vkB)` and listing. -/
theorem c9_stored_dids_frame_witness :
    Wallet.stored_dids
        { pool_name := "p", name := "w9", handle := some 1, cfg := [],
          did := none, verkey := none }
        { dids := [] } =
      ({ pool_name := "p", name := "w9", handle := some 1, cfg := [],
         did := none, verkey := none },
       { dids := [] }, []) ∧
    (Wallet.stored_dids
        { pool_name := "p", name := "w9", handle := some 1, cfg := [],
          did := some "didB", verkey := some "vkB" }
        { dids := [{ did := "didA", verkey := "vkA", metadata := none },
                   { did := "didB", verkey := "vkB", metadata := none }] }).2.2 =
      ([] : List DidInfo) ++
        [{ did := "didA", verkey := "vkA", metadata := none },
         { did := "didB", verkey := "vkB", metadata := none }] := by
  have h := c9_stored_dids_frame
    { pool_name := "p", name := "w9", handle := some 1, cfg := [],
      did := none, verkey := none }
    { dids := [] }
  refine ⟨h.1, ?_⟩
  exact h.2 ("didA", "vkA") ("didB", "vkB")
    { pool_name := "p", name := "w9", handle := some 1, cfg := [],
      did := some "didA", verkey := some "vkA" }
    { pool_name := "p", name := "w9", handle := some 1, cfg := [],
      did := some "didB", verkey := some "vkB" }
    { dids := [{ did := "didA", verkey := "vkA", metadata := none }] }
    { dids := [{ did := "didA", verkey := "vkA", metadata := none },
               { did := "didB", verkey := "vkB", metadata := none }] }
    "didA" "didB" rfl rfl

/-- C10: a successful `open` (fresh creation or already-existing) leaves
the stored configuration of the wallet object unchanged — `auto_remove`
is stripped only from the copy sent to the backend — so a later `close`
on the resulting wallet still invokes wallet deletion exactly when the
original configuration held a truthy `auto_remove`. -/
theorem c10_open_preserves_cfg (w w' : Wallet)
    (cr : Except IndyErrorCode Unit) (hnd : Nat)
    (hOpen : (Wallet.openW w cr (Except.ok hnd)).1 = Except.ok w') :
    w'.cfg = w.cfg ∧
    (BackendCall.deleteWallet w.name ∈
        (Wallet.close w' (Except.ok ()) (Except.ok ())).2 ↔
      autoRm w.cfg = true) := by
  have hw' : { w with handle := some hnd } = w' := by
    cases cr with
    | ok u => exact Except.ok.inj hOpen
    | error c =>
        by_cases hc : c = IndyErrorCode.WalletAlreadyExistsError
        · subst hc
          exact Except.ok.inj hOpen
        · simp [Wallet.openW, hc] at hOpen
  subst hw'
  refine ⟨rfl, ?_⟩
  by_cases ha : autoRm w.cfg = true
  · simp [Wallet.close, Wallet.remove, ha]
  · simp [Wallet.close, Wallet.remove, ha]

/-- Witness for C10: a concrete wallet whose configuration holds
`auto_remove: true`, opened fresh with session handle 4. -/
theorem c10_open_preserves_cfg_witness :
    ({ pool_name := "p", name := "w10", handle := some 4,
       cfg := [("auto_remove", JVal.jbool true)], did := none,
       verkey := none } : Wallet).cfg =
      (Wallet.init "p" "w10" (some [("auto_remove", JVal.jbool true)])).cfg ∧
    (BackendCall.deleteWallet
        (Wallet.init "p" "w10" (some [("auto_remove", JVal.jbool true)])).name ∈
      (Wallet.close
        { pool_name := "p", name := "w10", handle := some 4,
          cfg := [("auto_remove", JVal.jbool true)], did := none,
          verkey := none }
        (Except.ok ()) (Except.ok ())).2 ↔
      autoRm (Wallet.init "p" "w10"
        (some [("auto_remove", JVal.jbool true)])).cfg = true) :=
  c10_open_preserves_cfg
    (Wallet.init "p" "w10" (some [("auto_remove", JVal.jbool true)]))
    { pool_name := "p", name := "w10", handle := some 4,
      cfg := [("auto_remove", JVal.jbool true)], did := none,
      verkey := none }
    (Except.ok ()) 4 rfl
